import Mathlib

/-!
Verification of the dual-rail payment / subscription core of the
telegram-subscription-bot repository.

The development shallowly embeds the parts of the code the claims are about:

* `services/payment_processor.py` (`PaymentProcessor`): payment sessions,
  `confirm_payment`, `cancel_payment`, `process_stars_payment`,
  `process_card_payment`;
* `services/airwallex_payment.py` (`verify_webhook_signature`);
* `services/webhook_handler.py` (`AirwallexWebhookHandler.handle_webhook`);
* `database/supabase_client.py` (`update_user`, `whitelist_user`,
  `create_user`, `get_or_create_user`, `_manual_activate_subscription`,
  `get_expired_subscriptions`, `bulk_whitelist_users`);
* `services/subscription_manager.py` (`process_expired_subscriptions`).

Conventions of the embedding:

* Wall-clock time and dates are modelled as `Int` day numbers (the code only
  ever uses day granularity in the claimed properties; a 24h TTL is one day).
  `datetime.now()` / `date.today()` become an explicit `now` / `today`
  argument.
* Dollar amounts are kept in integer cents: the hardcoded rate 1 Star = 0.02
  USD becomes `stars * 2` cents, exactly.
* External collaborators (the Airwallex gateway, Telegram) are modelled by
  explicit arguments carrying the response the collaborator would return;
  counters in the state record how often each outbound call is made.
* Python dictionaries keyed by strings become association lists preserving
  insertion order, matching CPython dict semantics.
-/

/-- PaymentStatus enum from payment_processor.py. -/
inductive PaymentStatus
  | pending
  | processing
  | completed
  | failed
  | cancelled
  | expired
  | refunded
deriving DecidableEq

/-- PaymentMethod enum from payment_processor.py (CARD = Airwallex card link,
STARS = Telegram Stars). -/
inductive PayMethod
  | card
  | stars
deriving DecidableEq

/-- The plan_details dict captured in a payment session.  Every plan in the
source carries the keys stars, days and name, so the defaults of
plan_details.get are never exercised. -/
structure PlanDetails where
  stars : Nat
  days : Nat
  name : String
deriving DecidableEq

/-- One entry of a session attempts list. -/
structure Attempt where
  method : PayMethod
  timestamp : Int
  status : String
  error : Option String
deriving DecidableEq

/-- A payment session dict as created by create_payment_session.  The
user_info dict is only forwarded to the gateway when creating a link and
never read back, so it is not part of the state. -/
structure Session where
  session_id : String
  user_id : Int
  plan_id : String
  plan_details : PlanDetails
  status : PaymentStatus
  created_at : Int
  expires_at : Int
  payment_method : Option PayMethod
  payment_link_id : Option String
  payment_url : Option String
  transaction_id : Option String
  invoice_payload : Option String
  attempts : List Attempt
  completed_at : Option Int
  cancelled_at : Option Int
deriving DecidableEq

/-- The mutable state of a PaymentProcessor instance: the in-memory session
dict, the payment_history dict (`history` maps a session id to the stored
session snapshot together with its subscription_expires value), the
revenue_stats counters, and counters of the outbound calls the processor
makes (`gw_status_calls` counts get_payment_link_status calls,
`gw_cancel_calls` counts cancel_payment_link calls, `db_writes` counts writes
issued through self.db — the processor methods modelled here never issue
any). -/
structure ProcessorState where
  sessions : List (String × Session)
  history : List (String × (Session × Int))
  card_count : Nat
  card_total_cents : Nat
  stars_count : Nat
  stars_total : Nat
  gw_status_calls : Nat
  gw_cancel_calls : Nat
  db_writes : Nat
deriving DecidableEq

/-- Association-list lookup, first match wins (CPython dict lookup). -/
def alookup {α : Type} : List (String × α) → String → Option α
  | [], _ => none
  | (k2, v) :: t, k => if k2 = k then some v else alookup t k

/-- Association-list update: replace the first binding of the key in place,
append if absent (CPython dict assignment keeps the original position of an
existing key). -/
def aset {α : Type} : List (String × α) → String → α → List (String × α)
  | [], k, v => [(k, v)]
  | (k2, v2) :: t, k, v => if k2 = k then (k2, v) :: t else (k2, v2) :: aset t k v

/-- Python truthiness of an optional string: None and the empty string are
falsy. -/
def truthyStr : Option String → Bool
  | none => false
  | some s => s ≠ ""

/-- Linear scan of the session dict for a session whose payment_link_id
equals the given id (the for-loop in confirm_payment lines 290-294). -/
def findByLink : List (String × Session) → String → Option (String × Session)
  | [], _ => none
  | (k, s) :: t, pl => if s.payment_link_id = some pl then some (k, s) else findByLink t pl

/-- Session lookup of confirm_payment lines 285-294: by session_id when that
argument is truthy and present in the dict, otherwise by scanning for the
payment_link_id when that argument is truthy. -/
def lookupSession (sessions : List (String × Session)) (sid? pl? : Option String) :
    Option (String × Session) :=
  let byLink : Option (String × Session) :=
    match pl? with
    | none => none
    | some pl => if pl = "" then none else findByLink sessions pl
  match sid? with
  | some sid =>
      if sid = "" then byLink
      else
        match alookup sessions sid with
        | some s => some (sid, s)
        | none => byLink
  | none => byLink

/-- The keyword arguments of confirm_payment. -/
structure ConfirmArgs where
  session_id : Option String
  payment_link_id : Option String
  transaction_id : Option String
  payment_method : Option PayMethod
deriving DecidableEq

/-- The success payload of confirm_payment (lines 333-340). -/
structure ConfirmResult where
  user_id : Int
  plan_id : String
  plan_name : String
  expires_at : Int
  transaction_id : Option String
  payment_method : PayMethod
deriving DecidableEq

/-- The unconditional completion block of confirm_payment (lines 308-340):
mark the session completed, store the transaction id and completion time,
compute subscription_expires = now + plan.days (always from now), bump the
revenue counters for the rail, write the history entry, and build the result.
When payment_method is None the f-string on line 331 evaluates
payment_method.value and raises AttributeError, which the enclosing
try/except turns into a failure return — but only after every mutation above
has already happened. -/
def confirmProceed (st : ProcessorState) (sid : String) (s : Session)
    (args : ConfirmArgs) (now : Int) : (Bool × Option ConfirmResult) × ProcessorState :=
  let s2 : Session :=
    { s with status := PaymentStatus.completed
             transaction_id := args.transaction_id
             completed_at := some now }
  let expires : Int := now + s.plan_details.days
  let st2 : ProcessorState := { st with sessions := aset st.sessions sid s2 }
  let st3 : ProcessorState :=
    if args.payment_method = some PayMethod.card then
      { st2 with card_count := st2.card_count + 1
                 card_total_cents := st2.card_total_cents + s.plan_details.stars * 2 }
    else if args.payment_method = some PayMethod.stars then
      { st2 with stars_count := st2.stars_count + 1
                 stars_total := st2.stars_total + s.plan_details.stars }
    else st2
  let st4 : ProcessorState := { st3 with history := aset st3.history sid (s2, expires) }
  match args.payment_method with
  | none => ((false, none), st4)
  | some m =>
      ((true, some { user_id := s.user_id
                     plan_id := s.plan_id
                     plan_name := s.plan_details.name
                     expires_at := expires
                     transaction_id := args.transaction_id
                     payment_method := m }), st4)

/-- confirm_payment (payment_processor.py lines 271-344).  `aw` says whether
self.airwallex is configured; `gw` is the (success, status) pair that
get_payment_link_status would return if called.  The remote re-check runs
only when the method is card AND the gateway client exists AND a truthy
payment_link_id argument was supplied; in every other case the call proceeds
straight to completion. -/
def confirm_payment (aw : Bool) (gw : Bool × Option String) (st : ProcessorState)
    (args : ConfirmArgs) (now : Int) : (Bool × Option ConfirmResult) × ProcessorState :=
  match lookupSession st.sessions args.session_id args.payment_link_id with
  | none => ((false, none), st)
  | some (sid, s) =>
      if args.payment_method = some PayMethod.card ∧ aw = true ∧
          truthyStr args.payment_link_id = true then
        let st1 : ProcessorState := { st with gw_status_calls := st.gw_status_calls + 1 }
        if gw.1 = true ∧ gw.2 = some "PAID" then confirmProceed st1 sid s args now
        else ((false, none), st1)
      else confirmProceed st sid s args now

/-- cancel_payment (lines 346-362): no terminal-status check; cancels the
hosted link whenever one is recorded and the gateway client exists, then
overwrites the status with cancelled. -/
def cancel_payment (aw : Bool) (st : ProcessorState) (sid : String) (now : Int) :
    Bool × ProcessorState :=
  match alookup st.sessions sid with
  | none => (false, st)
  | some s =>
      let st1 : ProcessorState :=
        if truthyStr s.payment_link_id = true ∧ aw = true then
          { st with gw_cancel_calls := st.gw_cancel_calls + 1 }
        else st
      let s2 : Session := { s with status := PaymentStatus.cancelled, cancelled_at := some now }
      (true, { st1 with sessions := aset st1.sessions sid s2 })

/-- process_stars_payment (lines 230-269): no terminal-status check; moves
any existing session to processing, assigns the invoice payload
(`invoice_payload or session_id`, Python or on a possibly-falsy string) and
appends an attempt record. -/
def process_stars_payment (st : ProcessorState) (sid : String)
    (invoice_payload : Option String) (now : Int) :
    (Bool × Option (String × Nat)) × ProcessorState :=
  match alookup st.sessions sid with
  | none => ((false, none), st)
  | some s =>
      let payload : String :=
        match invoice_payload with
        | none => sid
        | some p => if p = "" then sid else p
      let s2 : Session :=
        { s with status := PaymentStatus.processing
                 payment_method := some PayMethod.stars
                 invoice_payload := some payload
                 attempts := s.attempts ++
                   [{ method := PayMethod.stars, timestamp := now
                      status := "invoice_created", error := none }] }
      ((true, some (payload, s.plan_details.stars)), { st with sessions := aset st.sessions sid s2 })

/-- The (id, url) pair returned by a successful create_payment_link call. -/
structure CardLinkResult where
  id : String
  url : String
deriving DecidableEq

/-- process_card_payment (lines 133-228): fails with fallback when the
gateway client is absent; otherwise moves the session to processing with
method card, then either records the created link (success) or marks the
session failed (gateway failure), appending an attempt record either way.
`gwCreate` is the outcome create_payment_link would return. -/
def process_card_payment (aw : Bool) (gwCreate : Except String CardLinkResult)
    (st : ProcessorState) (sid : String) (now : Int) :
    (Bool × Bool) × ProcessorState :=
  match alookup st.sessions sid with
  | none => ((false, false), st)
  | some s =>
      if aw = false then ((false, true), st)
      else
        let s1 : Session := { s with status := PaymentStatus.processing
                                     payment_method := some PayMethod.card }
        match gwCreate with
        | Except.ok r =>
            let s2 : Session :=
              { s1 with payment_link_id := some r.id
                        payment_url := some r.url
                        attempts := s1.attempts ++
                          [{ method := PayMethod.card, timestamp := now
                             status := "link_created", error := none }] }
            ((true, false), { st with sessions := aset st.sessions sid s2 })
        | Except.error e =>
            let s2 : Session :=
              { s1 with status := PaymentStatus.failed
                        attempts := s1.attempts ++
                          [{ method := PayMethod.card, timestamp := now
                             status := "failed", error := some e }] }
            ((false, true), { st with sessions := aset st.sessions sid s2 })

/-- create_payment_session (lines 92-131): registers a fresh pending session
with a 24h TTL (one day in this model). -/
def create_payment_session (st : ProcessorState) (user_id : Int) (plan_id : String)
    (plan : PlanDetails) (now : Int) : String × ProcessorState :=
  let sid : String := "pay_" ++ toString user_id ++ "_" ++ toString now
  let s : Session :=
    { session_id := sid, user_id := user_id, plan_id := plan_id, plan_details := plan
      status := PaymentStatus.pending, created_at := now, expires_at := now + 1
      payment_method := none, payment_link_id := none, payment_url := none
      transaction_id := none, invoice_payload := none, attempts := []
      completed_at := none, cancelled_at := none }
  (sid, { st with sessions := aset st.sessions sid s })

/-- A value passed for a users-table column: the source passes strings for
every column except next_payment_date, which carries a date. -/
inductive FieldVal
  | str (s : String)
  | date (d : Int)
deriving DecidableEq

/-- One row of the users table (supabase_client.py User dataclass; the
server-assigned id/created_at/updated_at columns play no role in any claim).
telegram_id is the unique key. -/
structure UserRow where
  telegram_id : Int
  username : Option String
  subscription_status : String
  payment_method : Option String
  next_payment_date : Option Int
  airwallex_payment_id : Option String
  stars_transaction_id : Option String
deriving DecidableEq

/-- The users table, unique telegram_id per row. -/
abbrev Store : Type := List UserRow

/-- One row of the append-only activity_log table. -/
structure ActLog where
  telegram_id : Int
  action : String
  details : List (String × String)
deriving DecidableEq

/-- get_user (lines 125-148): select by telegram_id. -/
def get_user (st : Store) (tid : Int) : Option UserRow :=
  List.find? (fun r => r.telegram_id == tid) st

/-- create_user (lines 150-185): insert a row carrying telegram_id, username
and subscription_status (default expired); every other column is NULL.  A
duplicate telegram_id violates the unique constraint, the exception handler
returns None and the table is unchanged. -/
def create_user (st : Store) (tid : Int) (username : Option String)
    (subscription_status : String) : Option UserRow × Store :=
  match get_user st tid with
  | some _ => (none, st)
  | none =>
      let r : UserRow :=
        { telegram_id := tid, username := username
          subscription_status := subscription_status, payment_method := none
          next_payment_date := none, airwallex_payment_id := none
          stars_transaction_id := none }
      (some r, st ++ [r])

/-- The valid_fields set of update_user (lines 203-207). -/
def validFields : List String :=
  ["username", "subscription_status", "payment_method",
   "next_payment_date", "airwallex_payment_id", "stars_transaction_id"]

/-- The dict comprehension of update_user line 208: keep only entries whose
key is a valid field and whose value is not None. -/
def filterKwargs (kwargs : List (String × Option FieldVal)) : List (String × FieldVal) :=
  kwargs.filterMap (fun kv =>
    match kv.2 with
    | none => none
    | some v => if validFields.contains kv.1 then some (kv.1, v) else none)

/-- Apply one update-dict entry to a row (the column assignment the
PostgREST update performs).  The source only ever sends a string to the
string columns and a date to next_payment_date, so the ill-typed
combinations below are never exercised. -/
def applyField (r : UserRow) (kv : String × FieldVal) : UserRow :=
  if kv.1 = "username" then
    match kv.2 with | FieldVal.str s => { r with username := some s } | _ => r
  else if kv.1 = "subscription_status" then
    match kv.2 with | FieldVal.str s => { r with subscription_status := s } | _ => r
  else if kv.1 = "payment_method" then
    match kv.2 with | FieldVal.str s => { r with payment_method := some s } | _ => r
  else if kv.1 = "next_payment_date" then
    match kv.2 with | FieldVal.date d => { r with next_payment_date := some d } | _ => r
  else if kv.1 = "airwallex_payment_id" then
    match kv.2 with | FieldVal.str s => { r with airwallex_payment_id := some s } | _ => r
  else if kv.1 = "stars_transaction_id" then
    match kv.2 with | FieldVal.str s => { r with stars_transaction_id := some s } | _ => r
  else r

/-- Fold a filtered update dict over a row. -/
def applyData (r : UserRow) (kwargs : List (String × Option FieldVal)) : UserRow :=
  (filterKwargs kwargs).foldl applyField r

/-- update_user (lines 187-226): filter the kwargs; when nothing survives,
perform no write and return the current row; otherwise update the matching
row and return it, or None (table unchanged) when no row matches. -/
def update_user (st : Store) (tid : Int) (kwargs : List (String × Option FieldVal)) :
    Option UserRow × Store :=
  let data := filterKwargs kwargs
  if data.isEmpty then (get_user st tid, st)
  else
    match get_user st tid with
    | none => (none, st)
    | some r =>
        let r2 := data.foldl applyField r
        (some r2, st.map (fun x => if x.telegram_id == tid then r2 else x))

/-- get_or_create_user (lines 228-250): fetch, refresh a changed truthy
username, or create with the default expired status. -/
def get_or_create_user (st : Store) (tid : Int) (username : Option String) :
    Option UserRow × Store :=
  match get_user st tid with
  | some u =>
      match username with
      | some un =>
          if un ≠ "" ∧ some un ≠ u.username then
            update_user st tid [("username", some (FieldVal.str un))]
          else (some u, st)
      | none => (some u, st)
  | none => create_user st tid username "expired"

/-- whitelist_user (lines 395-424): ensure the user exists, then update to
whitelisted status via update_user, passing next_payment_date=None with the
intent of clearing the expiry (comment on line 417: whitelisted users do not
have an expiry). -/
def whitelist_user (st : Store) (tid : Int) (username : Option String) : Bool × Store :=
  match get_or_create_user st tid username with
  | (none, st2) => (false, st2)
  | (some _, st2) =>
      let (res, st3) := update_user st2 tid
        [("subscription_status", some (FieldVal.str "whitelisted")),
         ("payment_method", some (FieldVal.str "whitelisted")),
         ("next_payment_date", none)]
      (res.isSome, st3)

/-- One record of the bulk_whitelist_users upsert batch (lines 450-458): the
upsert sends explicit values for these four columns, including an explicit
NULL for next_payment_date, so a conflicting row has them overwritten and
its remaining columns kept. -/
def upsertWhitelistRow (st : Store) (tid : Int) (username : Option String) : Store :=
  match get_user st tid with
  | some _ =>
      st.map (fun r =>
        if r.telegram_id == tid then
          { r with username := username, subscription_status := "whitelisted"
                   payment_method := some "whitelisted", next_payment_date := none }
        else r)
  | none =>
      st ++ [{ telegram_id := tid, username := username
               subscription_status := "whitelisted", payment_method := some "whitelisted"
               next_payment_date := none, airwallex_payment_id := none
               stars_transaction_id := none }]

/-- bulk_whitelist_users (lines 426-482), batching elided (batches are
applied in order, so the store effect is the fold of the per-record
upsert). -/
def bulk_whitelist_users (st : Store) (users : List (Int × Option String)) : Store :=
  users.foldl (fun acc u => upsertWhitelistRow acc u.1 u.2) st

/-- _manual_activate_subscription (lines 308-364), the fallback activation
path: fetch or create the user, compute the new expiry — hardcoded 30 days,
stacked on a still-future next_payment_date unless extend_from_today, else
from today — update the row and append the payment_successful log entry. -/
def manual_activate_subscription (st : Store) (tid : Int) (pm : String)
    (txid : Option String) (extend_from_today : Bool) (today : Int) :
    (Bool × Option Int × String) × Store × List ActLog :=
  let fetched : Option UserRow × Store :=
    match get_user st tid with
    | some u => (some u, st)
    | none => create_user st tid none "expired"
  match fetched with
  | (none, st1) => ((false, none, "Failed to create user"), st1, [])
  | (some u, st1) =>
      let new_expiry : Int :=
        match u.next_payment_date with
        | none => today + 30
        | some d => if extend_from_today = true ∨ d < today then today + 30 else d + 30
      let base : List (String × Option FieldVal) :=
        [("subscription_status", some (FieldVal.str "active")),
         ("payment_method", some (FieldVal.str pm)),
         ("next_payment_date", some (FieldVal.date new_expiry))]
      let extra : List (String × Option FieldVal) :=
        if pm = "card" ∧ truthyStr txid = true then
          [("airwallex_payment_id", txid.map FieldVal.str)]
        else if pm = "stars" ∧ truthyStr txid = true then
          [("stars_transaction_id", txid.map FieldVal.str)]
        else []
      let updated := update_user st1 tid (base ++ extra)
      match updated.1 with
      | some _ =>
          ((true, some new_expiry, "Subscription activated successfully"), updated.2,
           [{ telegram_id := tid, action := "payment_successful"
              details := [("payment_method", pm)] }])
      | none => ((false, none, "Failed to update user subscription"), updated.2, [])

/-- get_expired_subscriptions (lines 589-604): rows with status active and a
non-NULL next_payment_date strictly before today (SQL comparison against
NULL is never true). -/
def get_expired_subscriptions (st : Store) (today : Int) : List UserRow :=
  st.filter (fun r =>
    r.subscription_status == "active" &&
      (match r.next_payment_date with
       | some d => decide (d < today)
       | none => false))

/-- The Python runtime errors relevant to the scheduler sweep. -/
inductive PyError
  | typeError
  | attributeError
deriving DecidableEq

/-- The subscript expression user_data["telegram_id"] in
subscription_manager.py line 105: get_expired_subscriptions returns User
dataclass instances, dataclasses define no __getitem__, so the subscript
raises TypeError. -/
def userSubscript (_ : UserRow) (_ : String) : Except PyError Int :=
  Except.error PyError.typeError

/-- The expression user_data.get("telegram_id") in the per-user except
handler (line 129): a User dataclass has no attribute named get, so the
attribute access raises AttributeError. -/
def userGetMethod (_ : UserRow) (_ : String) : Except PyError (Option Int) :=
  Except.error PyError.attributeError

/-- One iteration of the loop in process_expired_subscriptions (lines
103-129).  The first statement of the inner try subscripts the User
dataclass, raising TypeError; the per-user except handler then formats a log
message that calls user_data.get, raising AttributeError, which escapes the
handler and aborts the loop.  The Except.ok branch spells out what the body
would do — remove_from_group (best-effort: it catches every exception
itself, treating user-not-found as success), update the row to expired,
notify, and append the subscription_expired log entry — but it is
unreachable. -/
def processExpiredUser (db : Store) (u : UserRow) :
    Except PyError (Store × List ActLog × Nat) :=
  match userSubscript u "telegram_id" with
  | Except.ok tid =>
      let upd := update_user db tid
        [("subscription_status", some (FieldVal.str "expired"))]
      Except.ok (upd.2,
        [{ telegram_id := tid, action := "subscription_expired"
           details := [("reason", "automatic_expiry")] }], 1)
  | Except.error _ =>
      match userGetMethod u "telegram_id" with
      | Except.ok _ => Except.ok (db, [], 0)
      | Except.error e => Except.error e

/-- The loop of process_expired_subscriptions, threading the store and log
list; database writes already made persist when a later iteration raises
(the store is external state). -/
def processExpiredLoop (db : Store) (log : List ActLog) (acc : Nat) :
    List UserRow → Store × List ActLog × Nat × Option PyError
  | [] => (db, log, acc, none)
  | u :: rest =>
      match processExpiredUser db u with
      | Except.error e => (db, log, acc, some e)
      | Except.ok (db2, l2, n) => processExpiredLoop db2 (log ++ l2) (acc + n) rest

/-- process_expired_subscriptions (subscription_manager.py lines 96-135):
run the loop over the overdue rows; the outer except turns any escaped
exception into a return of 0. -/
def process_expired_subscriptions (db : Store) (today : Int) :
    Nat × Store × List ActLog :=
  match processExpiredLoop db [] 0 (get_expired_subscriptions db today) with
  | (db2, log, n, none) => (n, db2, log)
  | (db2, log, _, some _) => (0, db2, log)

/-- The parameter names of AirwallexPaymentService.verify_webhook_signature
(airwallex_payment.py line 265), after self; none has a default. -/
def verifyParamNames : List String := ["webhook_id", "timestamp", "signature"]

/-- The keyword-argument names used by the two in-repository callers of
verify_webhook_signature: webhook_handler.py lines 66-71 passes body,
timestamp, signature and tolerance_seconds; the unit test in
tests/test_webhook_security.py passes body, timestamp and signature. -/
def handlerCallKwargs : List String := ["body", "timestamp", "signature", "tolerance_seconds"]

/-- Python keyword binding for a call passing only keyword arguments to a
function whose (non-self) parameters all lack defaults: the call binds
exactly when every keyword names a parameter and every parameter receives a
value; otherwise the call raises TypeError. -/
def kwargsBindOk (params kwargs : List String) : Bool :=
  kwargs.all (fun k => params.contains k) && params.all (fun p => kwargs.contains p)

/-- verify_webhook_signature (airwallex_payment.py lines 265-298), called
positionally: with no secret configured verification is skipped (returns
True); otherwise the expected signature is an HMAC-SHA256 hex digest of
webhook_id + "." + timestamp under the secret, compared with
hmac.compare_digest (constant-time equality).  The hex-digest function is a
parameter of the embedding; no claim depends on the digest values
themselves.  The request body and the current time are not inputs of the
function at all. -/
def verify_webhook_signature (hmacHex : String → String → String)
    (secret webhook_id timestamp signature : String) : Bool :=
  if secret = "" then true
  else signature == hmacHex secret (webhook_id ++ "." ++ timestamp)

/-- The parsed JSON envelope of a webhook event as far as handle_webhook
inspects it. -/
structure WebhookEvent where
  id : Option String
  name : String
deriving DecidableEq

/-- An incoming webhook request: the two security headers, the raw body, and
the outcome json.loads(body) would produce (none = JSONDecodeError). -/
structure WebhookRequest where
  timestamp : Option String
  signature : Option String
  body : String
  parsed : Option WebhookEvent
deriving DecidableEq

/-- The configuration of an AirwallexWebhookHandler: the AIRWALLEX_WEBHOOK_SECRET
value and whether a payment processor with a gateway client is attached. -/
structure WebhookConfig where
  webhook_secret : String
  has_payment_processor : Bool
  has_airwallex : Bool
deriving DecidableEq

/-- The mutable state of the webhook handler: the processed_webhooks de-dup
set (as a list in insertion order) and, as the observable effect the claims
are about, the list of event ids for which process_webhook_event was
invoked. -/
structure WebhookState where
  processed : List String
  handled : List String
deriving DecidableEq

/-- The de-dup cache cleanup of handle_webhook lines 103-106: past 10000
entries the source converts the set to a list — in CPython set iteration
order, which is arbitrary — and keeps the last 5000 of that list.  `order`
is the arbitrary reordering the runtime produces at that moment, supplied by
the environment as an input of the model: the just-recorded event id may or
may not survive an eviction. -/
def evictProcessed (order : List String → List String) (l : List String) : List String :=
  if l.length > 10000 then (order l).drop ((order l).length - 5000) else l

/-- handle_webhook (webhook_handler.py lines 36-114).  Steps in source
order: (1) missing x-timestamp / x-signature header (falsy string) → 400;
(3) when a secret, a processor and a gateway client are all configured, the
source invokes verify_webhook_signature with the keyword arguments body,
timestamp, signature, tolerance_seconds — kwargsBindOk verifyParamNames
handlerCallKwargs is false, so the call raises TypeError, the outer except
catches it and returns 500; (4) unparseable JSON → 400; (5) falsy event id →
400; (6) duplicate event id → 200 without reprocessing; (7) dispatch the
event (recorded in handled); (8) record the id, evicting when oversized —
`order` is the arbitrary set-iteration order the eviction would use;
(9) 200. -/
def handle_webhook (order : List String → List String) (cfg : WebhookConfig)
    (st : WebhookState) (req : WebhookRequest) :
    Nat × WebhookState :=
  if truthyStr req.timestamp = false ∨ truthyStr req.signature = false then (400, st)
  else if cfg.webhook_secret ≠ "" ∧ cfg.has_payment_processor = true ∧
      cfg.has_airwallex = true then
    (500, st)
  else
    match req.parsed with
    | none => (400, st)
    | some ev =>
        if truthyStr ev.id = false then (400, st)
        else
          match ev.id with
          | none => (400, st)
          | some i =>
              if st.processed.contains i then (200, st)
              else (200, { processed := evictProcessed order (st.processed ++ [i])
                           handled := st.handled ++ [i] })

/-- Uniform read of a users-table column, for stating frame properties of
update_user. -/
def getField (r : UserRow) (k : String) : Option FieldVal :=
  if k = "username" then r.username.map FieldVal.str
  else if k = "subscription_status" then some (FieldVal.str r.subscription_status)
  else if k = "payment_method" then r.payment_method.map FieldVal.str
  else if k = "next_payment_date" then r.next_payment_date.map FieldVal.date
  else if k = "airwallex_payment_id" then r.airwallex_payment_id.map FieldVal.str
  else if k = "stars_transaction_id" then r.stars_transaction_id.map FieldVal.str
  else none

/-- Whether a filtered update dict carries an entry for the given column. -/
def hasEntry (data : List (String × FieldVal)) (k : String) : Bool :=
  data.any (fun kv => kv.1 == k)

/-- A processor state with the given session dict and all counters at their
initial zeros (payment_processor.py lines 64-72). -/
def procState0 (sessions : List (String × Session)) : ProcessorState :=
  { sessions := sessions, history := [], card_count := 0, card_total_cents := 0
    stars_count := 0, stars_total := 0, gw_status_calls := 0, gw_cancel_calls := 0
    db_writes := 0 }

/-- The 30-day Standard plan of handlers/payments.py (100 Stars, 30 days). -/
def planStd : PlanDetails := { stars := 100, days := 30, name := "Standard" }

/-- A Stars session mid-payment: status processing, invoice issued. -/
def sessStars : Session :=
  { session_id := "pay_1", user_id := 1, plan_id := "standard", plan_details := planStd
    status := PaymentStatus.processing, created_at := 0, expires_at := 1
    payment_method := some PayMethod.stars, payment_link_id := none, payment_url := none
    transaction_id := none, invoice_payload := some "pay_1", attempts := []
    completed_at := none, cancelled_at := none }

/-- confirm_payment arguments for the Stars rail on session pay_1. -/
def cargsStars : ConfirmArgs :=
  { session_id := some "pay_1", payment_link_id := none
    transaction_id := some "tx_1", payment_method := some PayMethod.stars }

/-- A card session mid-payment with a hosted link. -/
def sessCard : Session :=
  { session_id := "pay_2", user_id := 42, plan_id := "standard", plan_details := planStd
    status := PaymentStatus.processing, created_at := 99, expires_at := 100
    payment_method := some PayMethod.card, payment_link_id := some "plink_2"
    payment_url := some "https", transaction_id := none, invoice_payload := none
    attempts := [], completed_at := none, cancelled_at := none }

/-- confirm_payment arguments for the card rail on session pay_2. -/
def cargsCard : ConfirmArgs :=
  { session_id := some "pay_2", payment_link_id := some "plink_2"
    transaction_id := some "txn_2", payment_method := some PayMethod.card }

/-- A card session mid-payment with no hosted link recorded. -/
def sessCardNoLink : Session :=
  { session_id := "pay_3", user_id := 7, plan_id := "standard", plan_details := planStd
    status := PaymentStatus.processing, created_at := 0, expires_at := 1
    payment_method := some PayMethod.card, payment_link_id := none, payment_url := none
    transaction_id := none, invoice_payload := none, attempts := []
    completed_at := none, cancelled_at := none }

/-- confirm_payment arguments for the card rail on session pay_3, with no
payment_link_id supplied. -/
def cargsCardNoLink : ConfirmArgs :=
  { session_id := some "pay_3", payment_link_id := none
    transaction_id := some "txn_3", payment_method := some PayMethod.card }

/-- A session that already reached the terminal completed status, with a
hosted link recorded. -/
def sessDone : Session :=
  { session_id := "pay_4", user_id := 9, plan_id := "standard", plan_details := planStd
    status := PaymentStatus.completed, created_at := 0, expires_at := 1
    payment_method := some PayMethod.card, payment_link_id := some "plink_4"
    payment_url := some "https", transaction_id := some "txn_4", invoice_payload := none
    attempts := [], completed_at := some 0, cancelled_at := none }

/-- A stored user with an active subscription ten days from expiry (day
numbers relative to today = 100). -/
def c2row : UserRow :=
  { telegram_id := 42, username := some "bob", subscription_status := "active"
    payment_method := some "card", next_payment_date := some 110
    airwallex_payment_id := none, stars_transaction_id := none }

/-- A stored user with an active subscription and a future expiry, about to
be whitelisted. -/
def c7row : UserRow :=
  { telegram_id := 1, username := some "alice", subscription_status := "active"
    payment_method := some "stars", next_payment_date := some 110
    airwallex_payment_id := none, stars_transaction_id := some "tx9" }

theorem alookup_aset_self {α : Type} (l : List (String × α)) (k : String) (v : α) :
    alookup (aset l k v) k = some v := by
  induction l with
  | nil => simp [aset, alookup]
  | cons h t ih =>
      by_cases hk : h.1 = k
      · simp [aset, alookup, hk]
      · simp [aset, alookup, hk, ih]

theorem contains_append_singleton (l : List String) (i : String) :
    (l ++ [i]).contains i = true := by
  induction l with
  | nil => simp
  | cons h t ih => simp [List.contains] at ih ⊢

theorem evictProcessed_eq_of_le (order : List String → List String) (l : List String)
    (h : l.length ≤ 10000) : evictProcessed order l = l := by
  unfold evictProcessed
  rw [if_neg]
  omega

/-- Claim C1 fails on the code: confirm_payment performs no terminal-status
check, so a second call for the same session id and transaction id succeeds
again and increments the Stars revenue counters a second time (count 2,
total 200 after two confirmations of the single 100-Star session), where the
claim requires the second call to leave the counters and the subscription
extension untouched. -/
theorem c1_confirm_not_idempotent :
    ((confirm_payment false (false, none)
        (confirm_payment false (false, none) (procState0 [("pay_1", sessStars)])
          cargsStars 100).2 cargsStars 100).1.1 = true) ∧
    ((confirm_payment false (false, none)
        (confirm_payment false (false, none) (procState0 [("pay_1", sessStars)])
          cargsStars 100).2 cargsStars 100).2.stars_count = 2) ∧
    ((confirm_payment false (false, none)
        (confirm_payment false (false, none) (procState0 [("pay_1", sessStars)])
          cargsStars 100).2 cargsStars 100).2.stars_total = 200) := by
  decide

/-- Claim C1 as amended: confirm_payment is not idempotent — after a first
successful Stars confirmation, a second call with the same session id and
the same arguments succeeds again, increments the Stars revenue counter a
second time, and recomputes the expiry from the time of the second call;
deduplication exists only in the webhook receiver (event-id check), not in
confirm_payment. -/
theorem c1_amended_second_confirmation_repeats_effects
    (aw : Bool) (gw : Bool × Option String) (st : ProcessorState)
    (args : ConfirmArgs) (sid : String) (s : Session) (now1 now2 : Int)
    (h1 : args.session_id = some sid) (h2 : sid ≠ "")
    (h3 : alookup st.sessions sid = some s)
    (hm : args.payment_method = some PayMethod.stars) :
    ((confirm_payment aw gw st args now1).1.1 = true) ∧
    ((confirm_payment aw gw (confirm_payment aw gw st args now1).2 args now2).1.1 = true) ∧
    ((confirm_payment aw gw (confirm_payment aw gw st args now1).2 args now2).2.stars_count
        = st.stars_count + 2) ∧
    ((confirm_payment aw gw (confirm_payment aw gw st args now1).2 args now2).1.2 =
      some { user_id := s.user_id, plan_id := s.plan_id, plan_name := s.plan_details.name
             expires_at := now2 + s.plan_details.days
             transaction_id := args.transaction_id
             payment_method := PayMethod.stars }) := by
  simp [confirm_payment, lookupSession, h1, h2, h3, hm, confirmProceed, alookup_aset_self]

/-- Witness for the amended claim C1 at a concrete state. -/
theorem c1_amended_witness :
    ((confirm_payment false (false, none) (procState0 [("pay_1", sessStars)])
        cargsStars 100).1.1 = true) ∧
    ((confirm_payment false (false, none)
        (confirm_payment false (false, none) (procState0 [("pay_1", sessStars)])
          cargsStars 100).2 cargsStars 200).2.stars_count
      = (procState0 [("pay_1", sessStars)]).stars_count + 2) :=
  ⟨(c1_amended_second_confirmation_repeats_effects false (false, none)
      (procState0 [("pay_1", sessStars)]) cargsStars "pay_1" sessStars 100 200
      (by decide) (by decide) (by decide) (by decide)).1,
   (c1_amended_second_confirmation_repeats_effects false (false, none)
      (procState0 [("pay_1", sessStars)]) cargsStars "pay_1" sessStars 100 200
      (by decide) (by decide) (by decide) (by decide)).2.2.1⟩

/-- Claim C2 fails on the code: for a stored user whose next_payment_date is
today + 10 (today = 100), confirming a fully gateway-verified 30-day plan
returns expires_at = 130 = today + 30, not today + 40 as the claim requires
— confirm_payment computes the expiry from datetime.now() on line 315 and
never reads the existing next_payment_date at all. -/
theorem c2_no_renewal_stacking_counterexample :
    (get_user [c2row] 42 = some c2row) ∧
    (c2row.next_payment_date = some (100 + 10)) ∧
    ((confirm_payment true (true, some "PAID") (procState0 [("pay_2", sessCard)])
        cargsCard 100).1 =
      (true, some { user_id := 42, plan_id := "standard", plan_name := "Standard"
                    expires_at := 130, transaction_id := some "txn_2"
                    payment_method := PayMethod.card })) ∧
    ((130 : Int) ≠ 100 + 40) := by
  decide

/-- Claim C2 as amended: on successful confirmation the new expiry always
equals plan.days counted from now, whatever the stored next_payment_date
(no stacking).  The stacking rule the claim describes — extend from a
still-future next_payment_date, restart from today when lapsed — exists only
in SupabaseClient._manual_activate_subscription, with a hardcoded 30 days
rather than plan.days, and that function is not invoked by the confirmation
flow (its only caller is activate_subscription, which no confirmation path
calls). -/
theorem confirmProceed_fst (st : ProcessorState) (sid : String) (s : Session)
    (args : ConfirmArgs) (now : Int) (m : PayMethod)
    (hm : args.payment_method = some m) :
    (confirmProceed st sid s args now).1 =
      (true, some { user_id := s.user_id, plan_id := s.plan_id
                    plan_name := s.plan_details.name
                    expires_at := now + s.plan_details.days
                    transaction_id := args.transaction_id
                    payment_method := m }) := by
  simp [confirmProceed, hm]

theorem lookupSession_of_sid (sessions : List (String × Session)) (sid : String)
    (pl? : Option String) (s : Session) (h2 : sid ≠ "")
    (h3 : alookup sessions sid = some s) :
    lookupSession sessions (some sid) pl? = some (sid, s) := by
  simp [lookupSession, h2, h3]

theorem c2_amended_expiry_rules :
    (∀ (aw : Bool) (gw : Bool × Option String) (st : ProcessorState)
       (args : ConfirmArgs) (sid : String) (s : Session) (now : Int) (m : PayMethod),
       args.session_id = some sid → sid ≠ "" →
       alookup st.sessions sid = some s →
       args.payment_method = some m →
       ((args.payment_method = some PayMethod.card ∧ aw = true ∧
           truthyStr args.payment_link_id = true) → gw.1 = true ∧ gw.2 = some "PAID") →
       (confirm_payment aw gw st args now).1 =
         (true, some { user_id := s.user_id, plan_id := s.plan_id
                       plan_name := s.plan_details.name
                       expires_at := now + s.plan_details.days
                       transaction_id := args.transaction_id
                       payment_method := m })) ∧
    (∀ (st : Store) (tid : Int) (u : UserRow) (today : Int),
       get_user st tid = some u →
       ((u.next_payment_date = some (today + 10)) →
         (manual_activate_subscription st tid "card" (some "tx_1") false today).1 =
           (true, some (today + 40), "Subscription activated successfully")) ∧
       ((u.next_payment_date = some (today - 5)) →
         (manual_activate_subscription st tid "card" (some "tx_1") false today).1 =
           (true, some (today + 30), "Subscription activated successfully"))) := by
  constructor
  · intro aw gw st args sid s now m h1 h2 h3 hm hv
    have hlook : lookupSession st.sessions args.session_id args.payment_link_id =
        some (sid, s) := by
      rw [h1]; exact lookupSession_of_sid st.sessions sid args.payment_link_id s h2 h3
    by_cases hc : args.payment_method = some PayMethod.card ∧ aw = true ∧
        truthyStr args.payment_link_id = true
    · obtain ⟨hg1, hg2⟩ := hv hc
      simp only [confirm_payment, hlook, if_pos hc, if_pos (And.intro hg1 hg2)]
      exact confirmProceed_fst _ sid s args now m hm
    · simp only [confirm_payment, hlook, if_neg hc]
      exact confirmProceed_fst st sid s args now m hm
  · intro st tid u today hget
    constructor
    · intro hnpd
      have h10 : ¬((today : Int) + 10 < today) := by omega
      have h40 : (today : Int) + 10 + 30 = today + 40 := by omega
      simp [manual_activate_subscription, hget, hnpd, h10, h40, update_user,
        filterKwargs, validFields, truthyStr]
    · intro hnpd
      have h5 : (today : Int) - 5 < today := by omega
      simp [manual_activate_subscription, hget, hnpd, h5, update_user,
        filterKwargs, validFields, truthyStr]

/-- Witness for the amended claim C2 at concrete inputs. -/
theorem c2_amended_witness :
    ((confirm_payment true (true, some "PAID") (procState0 [("pay_2", sessCard)])
        cargsCard 100).1 =
      (true, some { user_id := 42, plan_id := "standard", plan_name := "Standard"
                    expires_at := 100 + 30, transaction_id := some "txn_2"
                    payment_method := PayMethod.card })) ∧
    ((manual_activate_subscription [c2row] 42 "card" (some "tx_1") false 100).1 =
      (true, some (100 + 40), "Subscription activated successfully")) :=
  ⟨(c2_amended_expiry_rules.1 true (true, some "PAID") (procState0 [("pay_2", sessCard)])
      cargsCard "pay_2" sessCard 100 PayMethod.card (by decide) (by decide) (by decide)
      (by decide) (fun _ => ⟨rfl, rfl⟩)),
   ((c2_amended_expiry_rules.2 [c2row] 42 c2row 100 (by decide)).1 (by decide))⟩

theorem confirmProceed_db_writes (st : ProcessorState) (sid : String) (s : Session)
    (args : ConfirmArgs) (now : Int) :
    (confirmProceed st sid s args now).2.db_writes = st.db_writes := by
  cases hm : args.payment_method with
  | none => simp [confirmProceed, hm]
  | some m => cases m <;> simp [confirmProceed, hm]

theorem confirmProceed_sessions (st : ProcessorState) (sid : String) (s : Session)
    (args : ConfirmArgs) (now : Int) :
    (confirmProceed st sid s args now).2.sessions =
      aset st.sessions sid
        { s with status := PaymentStatus.completed
                 transaction_id := args.transaction_id
                 completed_at := some now } := by
  cases hm : args.payment_method with
  | none => simp [confirmProceed, hm]
  | some m => cases m <;> simp [confirmProceed, hm]

/-- Claim C3 fails on the code: a successful confirm_payment call returns
success and stores the session as completed while the Store has not been
written at all (db_writes stays 0 — confirm_payment never touches self.db),
so in particular when every Store write would fail the session does not
remain processing as the claim requires; it is already completed. -/
theorem c3_completed_without_store_write_counterexample :
    ((confirm_payment false (false, none) (procState0 [("pay_1", sessStars)])
        cargsStars 100).1.1 = true) ∧
    ((alookup (confirm_payment false (false, none) (procState0 [("pay_1", sessStars)])
        cargsStars 100).2.sessions "pay_1").map Session.status =
      some PaymentStatus.completed) ∧
    ((confirm_payment false (false, none) (procState0 [("pay_1", sessStars)])
        cargsStars 100).2.db_writes = 0) := by
  decide

/-- Claim C3 as amended: confirm_payment performs no Store write whatsoever
(self.db is never consulted, so the db_writes counter is preserved by every
call), and on the success path it marks the session completed and returns
success anyway; the subscription write is left to the callers, so a
store-side failure finds the session already completed rather than still
processing. -/
theorem c3_amended_no_store_write
    (aw : Bool) (gw : Bool × Option String) (st : ProcessorState)
    (args : ConfirmArgs) (now : Int) :
    ((confirm_payment aw gw st args now).2.db_writes = st.db_writes) ∧
    (∀ (sid : String) (s : Session) (m : PayMethod),
       args.session_id = some sid → sid ≠ "" →
       alookup st.sessions sid = some s →
       args.payment_method = some m →
       ((args.payment_method = some PayMethod.card ∧ aw = true ∧
           truthyStr args.payment_link_id = true) → gw.1 = true ∧ gw.2 = some "PAID") →
       ((confirm_payment aw gw st args now).1.1 = true ∧
        alookup (confirm_payment aw gw st args now).2.sessions sid =
          some { s with status := PaymentStatus.completed
                        transaction_id := args.transaction_id
                        completed_at := some now })) := by
  constructor
  · unfold confirm_payment
    cases hlook : lookupSession st.sessions args.session_id args.payment_link_id with
    | none => rfl
    | some p =>
        by_cases hc : args.payment_method = some PayMethod.card ∧ aw = true ∧
            truthyStr args.payment_link_id = true
        · by_cases hg : gw.1 = true ∧ gw.2 = some "PAID"
          · simp only [if_pos hc, if_pos hg]
            exact confirmProceed_db_writes _ p.1 p.2 args now
          · simp only [if_pos hc, if_neg hg]
        · simp only [if_neg hc]
          exact confirmProceed_db_writes st p.1 p.2 args now
  · intro sid s m h1 h2 h3 hm hv
    have hlook : lookupSession st.sessions args.session_id args.payment_link_id =
        some (sid, s) := by
      rw [h1]; exact lookupSession_of_sid st.sessions sid args.payment_link_id s h2 h3
    by_cases hc : args.payment_method = some PayMethod.card ∧ aw = true ∧
        truthyStr args.payment_link_id = true
    · obtain ⟨hg1, hg2⟩ := hv hc
      simp only [confirm_payment, hlook, if_pos hc, if_pos (And.intro hg1 hg2)]
      refine ⟨?_, ?_⟩
      · rw [confirmProceed_fst _ sid s args now m hm]
      · rw [confirmProceed_sessions, alookup_aset_self]
    · simp only [confirm_payment, hlook, if_neg hc]
      refine ⟨?_, ?_⟩
      · rw [confirmProceed_fst st sid s args now m hm]
      · rw [confirmProceed_sessions, alookup_aset_self]

/-- Witness for the amended claim C3 at a concrete state. -/
theorem c3_amended_witness :
    ((confirm_payment false (false, none) (procState0 [("pay_1", sessStars)])
        cargsStars 100).2.db_writes = (procState0 [("pay_1", sessStars)]).db_writes) ∧
    ((confirm_payment false (false, none) (procState0 [("pay_1", sessStars)])
        cargsStars 100).1.1 = true) :=
  ⟨(c3_amended_no_store_write false (false, none) (procState0 [("pay_1", sessStars)])
      cargsStars 100).1,
   ((c3_amended_no_store_write false (false, none) (procState0 [("pay_1", sessStars)])
      cargsStars 100).2 "pay_1" sessStars PayMethod.stars (by decide) (by decide)
      (by decide) (by decide) (fun h => absurd h.1 (by decide))).1⟩

theorem confirmProceed_gw_status_calls (st : ProcessorState) (sid : String) (s : Session)
    (args : ConfirmArgs) (now : Int) :
    (confirmProceed st sid s args now).2.gw_status_calls = st.gw_status_calls := by
  cases hm : args.payment_method with
  | none => simp [confirmProceed, hm]
  | some m => cases m <;> simp [confirmProceed, hm]

/-- Claim C4 fails on the code: a card confirmation with no payment_link_id
argument skips the gateway re-check entirely (the guard on line 303 is
"if self.airwallex and payment_link_id") — with the gateway configured but
no link id supplied, confirm_payment makes zero get_payment_link_status
calls, marks the session completed and returns success, so a client-supplied
confirmation trigger alone does yield a completed session. -/
theorem c4_unverified_completion_counterexample :
    ((confirm_payment true (false, none) (procState0 [("pay_3", sessCardNoLink)])
        cargsCardNoLink 100).1.1 = true) ∧
    ((alookup (confirm_payment true (false, none) (procState0 [("pay_3", sessCardNoLink)])
        cargsCardNoLink 100).2.sessions "pay_3").map Session.status =
      some PaymentStatus.completed) ∧
    ((confirm_payment true (false, none) (procState0 [("pay_3", sessCardNoLink)])
        cargsCardNoLink 100).2.gw_status_calls = 0) := by
  decide

/-- Claim C4 as amended: for card confirmations the remote status is
re-verified only when the gateway client is configured AND a truthy
payment_link_id argument is supplied — in that case exactly one status call
is made and a non-PAID answer yields failure with the session dict
untouched; when the gateway client is absent or no payment_link_id is given,
no status call is made and the call completes the session trusting the
caller. -/
theorem c4_amended_conditional_verification
    (aw : Bool) (gw : Bool × Option String) (st : ProcessorState)
    (args : ConfirmArgs) (sid : String) (s : Session) (now : Int)
    (h1 : args.session_id = some sid) (h2 : sid ≠ "")
    (h3 : alookup st.sessions sid = some s)
    (hm : args.payment_method = some PayMethod.card) :
    ((aw = true ∧ truthyStr args.payment_link_id = true) →
       ((confirm_payment aw gw st args now).2.gw_status_calls = st.gw_status_calls + 1) ∧
       (¬(gw.1 = true ∧ gw.2 = some "PAID") →
          (confirm_payment aw gw st args now).1.1 = false ∧
          (confirm_payment aw gw st args now).2.sessions = st.sessions)) ∧
    ((aw = false ∨ truthyStr args.payment_link_id = false) →
       ((confirm_payment aw gw st args now).2.gw_status_calls = st.gw_status_calls) ∧
       (confirm_payment aw gw st args now).1.1 = true) := by
  have hlook : lookupSession st.sessions args.session_id args.payment_link_id =
      some (sid, s) := by
    rw [h1]; exact lookupSession_of_sid st.sessions sid args.payment_link_id s h2 h3
  constructor
  · intro hga
    have hc : args.payment_method = some PayMethod.card ∧ aw = true ∧
        truthyStr args.payment_link_id = true := ⟨hm, hga.1, hga.2⟩
    by_cases hg : gw.1 = true ∧ gw.2 = some "PAID"
    · refine ⟨?_, fun hng => absurd hg hng⟩
      simp only [confirm_payment, hlook, if_pos hc, if_pos hg]
      rw [confirmProceed_gw_status_calls]
    · simp [confirm_payment, hlook, if_pos hc, if_neg hg]
  · intro hskip
    have hc : ¬(args.payment_method = some PayMethod.card ∧ aw = true ∧
        truthyStr args.payment_link_id = true) := by
      intro hcon
      rcases hskip with hf | hf
      · rw [hf] at hcon; exact Bool.false_ne_true hcon.2.1
      · rw [hf] at hcon; exact Bool.false_ne_true hcon.2.2
    simp only [confirm_payment, hlook, if_neg hc]
    refine ⟨confirmProceed_gw_status_calls st sid s args now, ?_⟩
    rw [confirmProceed_fst st sid s args now PayMethod.card hm]

/-- Witness for the amended claim C4 at concrete states: the verified-path
half on a session with a link and a non-PAID gateway answer, the skip-path
half on a session confirmed without a link id. -/
theorem c4_amended_witness :
    (((confirm_payment true (false, none) (procState0 [("pay_2", sessCard)])
        cargsCard 100).2.gw_status_calls =
          (procState0 [("pay_2", sessCard)]).gw_status_calls + 1) ∧
     ((confirm_payment true (false, none) (procState0 [("pay_2", sessCard)])
        cargsCard 100).1.1 = false)) ∧
    (((confirm_payment true (false, none) (procState0 [("pay_3", sessCardNoLink)])
        cargsCardNoLink 100).2.gw_status_calls =
          (procState0 [("pay_3", sessCardNoLink)]).gw_status_calls) ∧
     ((confirm_payment true (false, none) (procState0 [("pay_3", sessCardNoLink)])
        cargsCardNoLink 100).1.1 = true)) :=
  ⟨⟨((c4_amended_conditional_verification true (false, none)
        (procState0 [("pay_2", sessCard)]) cargsCard "pay_2" sessCard 100
        (by decide) (by decide) (by decide) (by decide)).1 ⟨rfl, by decide⟩).1,
    (((c4_amended_conditional_verification true (false, none)
        (procState0 [("pay_2", sessCard)]) cargsCard "pay_2" sessCard 100
        (by decide) (by decide) (by decide) (by decide)).1 ⟨rfl, by decide⟩).2
      (by decide)).1⟩,
   (c4_amended_conditional_verification true (false, none)
      (procState0 [("pay_3", sessCardNoLink)]) cargsCardNoLink "pay_3" sessCardNoLink 100
      (by decide) (by decide) (by decide) (by decide)).2 (Or.inr (by decide))⟩

/-- Claim C5 is right and the code is wrong (code_bug).  First conjunct: the
keyword arguments with which the repository itself calls
verify_webhook_signature (webhook_handler.py lines 66-71 and the unit test
in tests/test_webhook_security.py: body, timestamp, signature,
tolerance_seconds) do not bind to the implemented parameter list
(webhook_id, timestamp, signature), so the call raises TypeError at runtime
instead of verifying anything.  Second conjunct: even invoked positionally,
the implemented function accepts a signature computed over
webhook_id + "." + timestamp for ANY timestamp value — the current time is
not an input, so no freshness window is or can be enforced, and the request
body is not an input, so the digest cannot cover it. -/
theorem c5_verify_signature_mismatch :
    (kwargsBindOk verifyParamNames handlerCallKwargs = false) ∧
    (∀ (hmacHex : String → String → String) (secret webhook_id timestamp : String),
       secret ≠ "" →
       verify_webhook_signature hmacHex secret webhook_id timestamp
         (hmacHex secret (webhook_id ++ "." ++ timestamp)) = true) := by
  refine ⟨by decide, ?_⟩
  intro hmacHex secret webhook_id timestamp hs
  simp [verify_webhook_signature, hs]

/-- Witness for claim C5: the binding failure, and acceptance of a signature
carrying timestamp "0" (the epoch, arbitrarily stale) under a concrete
digest function. -/
theorem c5_witness :
    (kwargsBindOk verifyParamNames handlerCallKwargs = false) ∧
    (verify_webhook_signature (fun s m => s ++ m) "sec" "wid" "0"
      ((fun (s m : String) => s ++ m) "sec" ("wid" ++ "." ++ "0")) = true) :=
  ⟨c5_verify_signature_mismatch.1,
   c5_verify_signature_mismatch.2 (fun s m => s ++ m) "sec" "wid" "0" (by decide)⟩

/-- Claim C6 fails on the code in the production configuration: with the
webhook secret, the payment processor and the gateway client all configured
(the deployment the security setup is for), the verification call of
webhook_handler.py line 66 raises TypeError (its keyword arguments do not
bind — claim C5), the outer except returns 500, and the handler state is
untouched — so a well-formed fresh event delivered twice yields 500 twice
and zero invocations of process_webhook_event, not the 200/200 with exactly
one invocation the claim asserts for every delivery. -/
theorem c6_production_config_counterexample :
    (handle_webhook (fun l => l)
        { webhook_secret := "s", has_payment_processor := true, has_airwallex := true }
        { processed := [], handled := [] }
        { timestamp := some "1700000000", signature := some "sig", body := "{}"
          parsed := some { id := some "evt_1", name := "payment_intent.succeeded" } } =
      (500, { processed := [], handled := [] })) ∧
    (handle_webhook (fun l => l)
        { webhook_secret := "s", has_payment_processor := true, has_airwallex := true }
        (handle_webhook (fun l => l)
          { webhook_secret := "s", has_payment_processor := true, has_airwallex := true }
          { processed := [], handled := [] }
          { timestamp := some "1700000000", signature := some "sig", body := "{}"
            parsed := some { id := some "evt_1", name := "payment_intent.succeeded" } }).2
        { timestamp := some "1700000000", signature := some "sig", body := "{}"
          parsed := some { id := some "evt_1", name := "payment_intent.succeeded" } } =
      (500, { processed := [], handled := [] })) ∧
    ((500 : Nat) ≠ 200) := by
  decide

/-- Claim C6 as amended.  With the secret, processor and gateway all
configured, every delivery with both security headers present returns 500
with the handler state untouched (zero invocations of the event handler):
the verification call raises before the idempotency logic is reached.  The
idempotency the claim describes holds exactly on the requests that reach the
parsing stage — configurations with the verification gate off — and, because
the over-10000 eviction keeps an arbitrary 5000-element subset of the de-dup
set (CPython set iteration order) that may drop the just-recorded id, it is
guaranteed only while recording the id does not overflow the 10000-entry
cap: then a well-formed event delivered twice gets 200 twice and
process_webhook_event runs exactly once. -/
theorem c6_amended_guarded_idempotency :
    (∀ (order : List String → List String) (cfg : WebhookConfig) (st : WebhookState)
       (req : WebhookRequest),
       cfg.webhook_secret ≠ "" → cfg.has_payment_processor = true →
       cfg.has_airwallex = true →
       truthyStr req.timestamp = true → truthyStr req.signature = true →
       handle_webhook order cfg st req = (500, st)) ∧
    (∀ (order : List String → List String) (cfg : WebhookConfig) (st : WebhookState)
       (req : WebhookRequest) (ev : WebhookEvent) (i : String),
       ¬(cfg.webhook_secret ≠ "" ∧ cfg.has_payment_processor = true ∧
           cfg.has_airwallex = true) →
       truthyStr req.timestamp = true → truthyStr req.signature = true →
       req.parsed = some ev → ev.id = some i → i ≠ "" →
       st.processed.contains i = false →
       st.processed.length + 1 ≤ 10000 →
       ((handle_webhook order cfg st req).1 = 200) ∧
       ((handle_webhook order cfg st req).2.handled = st.handled ++ [i]) ∧
       ((handle_webhook order cfg (handle_webhook order cfg st req).2 req).1 = 200) ∧
       ((handle_webhook order cfg (handle_webhook order cfg st req).2 req).2 =
         (handle_webhook order cfg st req).2)) := by
  constructor
  · intro order cfg st req hs hp ha hts hsig
    simp [handle_webhook, hts, hsig, hs, hp, ha]
  · intro order cfg st req ev i hgate hts hsig hp hid hi hnew hlen
    have hnotmem : i ∉ st.processed := by simpa using hnew
    have hmem2 : i ∈ st.processed ++ [i] := by simp
    have htr : truthyStr (some i) = true := by simp [truthyStr, hi]
    have hEq : evictProcessed order (st.processed ++ [i]) = st.processed ++ [i] :=
      evictProcessed_eq_of_le order (st.processed ++ [i])
        (by simpa using hlen)
    have h1 : handle_webhook order cfg st req =
        (200, { processed := st.processed ++ [i]
                handled := st.handled ++ [i] }) := by
      simp [handle_webhook, hts, hsig, hgate, hp, hid, htr, hnotmem, hEq]
    have h2 : handle_webhook order cfg
        ({ processed := st.processed ++ [i]
           handled := st.handled ++ [i] } : WebhookState) req =
        (200, { processed := st.processed ++ [i]
                handled := st.handled ++ [i] }) := by
      simp [handle_webhook, hts, hsig, hgate, hp, hid, htr, hmem2]
    rw [h1]
    exact ⟨rfl, rfl, by rw [h2], by rw [h2]⟩

/-- Witness for the amended claim C6: the 500 half at a concrete production
configuration, the idempotency half at a concrete dev-mode configuration
with an empty de-dup cache, both on the same well-formed event. -/
theorem c6_amended_witness :
    (handle_webhook (fun l => l)
        { webhook_secret := "s", has_payment_processor := true, has_airwallex := true }
        { processed := ["evt_0"], handled := ["evt_0"] }
        { timestamp := some "1700000000", signature := some "sig", body := "{}"
          parsed := some { id := some "evt_1", name := "payment_intent.succeeded" } } =
      (500, { processed := ["evt_0"], handled := ["evt_0"] })) ∧
    ((handle_webhook (fun l => l)
        { webhook_secret := "", has_payment_processor := true, has_airwallex := true }
        { processed := [], handled := [] }
        { timestamp := some "1700000000", signature := some "sig", body := "{}"
          parsed := some { id := some "evt_1", name := "payment_intent.succeeded" } }).1
      = 200) ∧
    ((handle_webhook (fun l => l)
        { webhook_secret := "", has_payment_processor := true, has_airwallex := true }
        { processed := [], handled := [] }
        { timestamp := some "1700000000", signature := some "sig", body := "{}"
          parsed := some { id := some "evt_1", name := "payment_intent.succeeded" } }).2.handled
      = [] ++ ["evt_1"]) :=
  ⟨c6_amended_guarded_idempotency.1 (fun l => l)
      { webhook_secret := "s", has_payment_processor := true, has_airwallex := true }
      { processed := ["evt_0"], handled := ["evt_0"] }
      { timestamp := some "1700000000", signature := some "sig", body := "{}"
        parsed := some { id := some "evt_1", name := "payment_intent.succeeded" } }
      (by decide) (by decide) (by decide) (by decide) (by decide),
   (c6_amended_guarded_idempotency.2 (fun l => l)
      { webhook_secret := "", has_payment_processor := true, has_airwallex := true }
      { processed := [], handled := [] }
      { timestamp := some "1700000000", signature := some "sig", body := "{}"
        parsed := some { id := some "evt_1", name := "payment_intent.succeeded" } }
      { id := some "evt_1", name := "payment_intent.succeeded" } "evt_1"
      (by decide) (by decide) (by decide) (by decide) (by decide) (by decide)
      (by decide) (by decide)).1,
   (c6_amended_guarded_idempotency.2 (fun l => l)
      { webhook_secret := "", has_payment_processor := true, has_airwallex := true }
      { processed := [], handled := [] }
      { timestamp := some "1700000000", signature := some "sig", body := "{}"
        parsed := some { id := some "evt_1", name := "payment_intent.succeeded" } }
      { id := some "evt_1", name := "payment_intent.succeeded" } "evt_1"
      (by decide) (by decide) (by decide) (by decide) (by decide) (by decide)
      (by decide) (by decide)).2.1⟩

/-- Claim C7 is right and the code is wrong (code_bug): whitelisting a user
whose subscription is active with a future next_payment_date succeeds, sets
subscription_status = whitelisted — but leaves next_payment_date at its old
value instead of null, because whitelist_user clears it by passing
next_payment_date=None to update_user, whose filter (line 208) silently
drops every None value.  This contradicts the source's own comment on line
417 (whitelisted users do not have expiry).  The bulk path is not affected:
its upsert record carries the explicit NULL. -/
theorem c7_whitelist_keeps_expiry :
    ((whitelist_user [c7row] 1 none).1 = true) ∧
    (get_user (whitelist_user [c7row] 1 none).2 1 =
      some { c7row with subscription_status := "whitelisted"
                        payment_method := some "whitelisted" }) ∧
    ((get_user (whitelist_user [c7row] 1 none).2 1).map
        (fun u => u.next_payment_date) = some (some 110)) ∧
    (get_user (bulk_whitelist_users [c7row] [(1, some "alice")]) 1 =
      some { c7row with subscription_status := "whitelisted"
                        payment_method := some "whitelisted"
                        next_payment_date := none }) := by
  decide

/-- Claim C8 fails on the code: cancel_payment on an already-completed
session is not a no-op — it returns True, re-issues the hosted-link
cancellation (gw_cancel_calls becomes 1) and overwrites the terminal
completed status with cancelled. -/
theorem c8_cancel_mutates_terminal_session :
    ((cancel_payment true (procState0 [("pay_4", sessDone)]) "pay_4" 200).1 = true) ∧
    ((alookup (cancel_payment true (procState0 [("pay_4", sessDone)]) "pay_4" 200).2.sessions
        "pay_4").map Session.status = some PaymentStatus.cancelled) ∧
    ((cancel_payment true (procState0 [("pay_4", sessDone)]) "pay_4" 200).2.gw_cancel_calls
      = 1) := by
  decide

/-- Claim C8 as amended: terminal session states are not absorbing — none of
cancel_payment, process_stars_payment, process_card_payment checks for a
terminal status.  For any session present in the dict, whatever its status:
cancel_payment succeeds, overwrites the status with cancelled and re-cancels
the hosted link exactly when one is recorded and the gateway client exists;
process_stars_payment succeeds and moves the session back to processing;
process_card_payment with the gateway configured moves it to processing on
link creation or to failed on gateway failure. -/
theorem c8_amended_no_terminal_check
    (aw : Bool) (st : ProcessorState) (sid : String) (s : Session)
    (ip : Option String) (gwc : Except String CardLinkResult) (now : Int)
    (h : alookup st.sessions sid = some s) :
    (((cancel_payment aw st sid now).1 = true) ∧
     (alookup (cancel_payment aw st sid now).2.sessions sid =
       some { s with status := PaymentStatus.cancelled, cancelled_at := some now }) ∧
     ((cancel_payment aw st sid now).2.gw_cancel_calls = st.gw_cancel_calls +
       (if truthyStr s.payment_link_id = true ∧ aw = true then 1 else 0))) ∧
    (((process_stars_payment st sid ip now).1.1 = true) ∧
     (∃ s2, alookup (process_stars_payment st sid ip now).2.sessions sid = some s2 ∧
        s2.status = PaymentStatus.processing)) ∧
    (∃ s3, alookup (process_card_payment true gwc st sid now).2.sessions sid = some s3 ∧
       (s3.status = PaymentStatus.processing ∨ s3.status = PaymentStatus.failed)) := by
  refine ⟨⟨?_, ?_, ?_⟩, ⟨?_, ?_⟩, ?_⟩
  · simp [cancel_payment, h]
  · by_cases hl : truthyStr s.payment_link_id = true ∧ aw = true
    · simp [cancel_payment, h, hl, alookup_aset_self]
    · simp [cancel_payment, h, hl, alookup_aset_self]
  · by_cases hl : truthyStr s.payment_link_id = true ∧ aw = true
    · simp [cancel_payment, h, hl]
    · simp [cancel_payment, h, hl]
  · cases ip with
    | none => simp [process_stars_payment, h]
    | some p => by_cases hp : p = "" <;> simp [process_stars_payment, h, hp]
  · cases ip with
    | none =>
        refine ⟨{ s with status := PaymentStatus.processing
                         payment_method := some PayMethod.stars
                         invoice_payload := some sid
                         attempts := s.attempts ++
                           [{ method := PayMethod.stars, timestamp := now
                              status := "invoice_created", error := none }] }, ?_, rfl⟩
        simp [process_stars_payment, h, alookup_aset_self]
    | some p =>
        by_cases hp : p = ""
        · refine ⟨{ s with status := PaymentStatus.processing
                           payment_method := some PayMethod.stars
                           invoice_payload := some sid
                           attempts := s.attempts ++
                             [{ method := PayMethod.stars, timestamp := now
                                status := "invoice_created", error := none }] }, ?_, rfl⟩
          simp [process_stars_payment, h, hp, alookup_aset_self]
        · refine ⟨{ s with status := PaymentStatus.processing
                           payment_method := some PayMethod.stars
                           invoice_payload := some p
                           attempts := s.attempts ++
                             [{ method := PayMethod.stars, timestamp := now
                                status := "invoice_created", error := none }] }, ?_, rfl⟩
          simp [process_stars_payment, h, hp, alookup_aset_self]
  · cases gwc with
    | ok r =>
        refine ⟨{ s with status := PaymentStatus.processing
                         payment_method := some PayMethod.card
                         payment_link_id := some r.id
                         payment_url := some r.url
                         attempts := s.attempts ++
                           [{ method := PayMethod.card, timestamp := now
                              status := "link_created", error := none }] }, ?_, Or.inl rfl⟩
        simp [process_card_payment, h, alookup_aset_self]
    | error e =>
        refine ⟨{ s with status := PaymentStatus.failed
                         payment_method := some PayMethod.card
                         attempts := s.attempts ++
                           [{ method := PayMethod.card, timestamp := now
                              status := "failed", error := some e }] }, ?_, Or.inr rfl⟩
        simp [process_card_payment, h, alookup_aset_self]

/-- Witness for the amended claim C8 at a concrete completed session. -/
theorem c8_amended_witness :
    ((cancel_payment true (procState0 [("pay_4", sessDone)]) "pay_4" 200).1 = true) ∧
    ((process_stars_payment (procState0 [("pay_4", sessDone)]) "pay_4" none 200).1.1
      = true) :=
  ⟨((c8_amended_no_terminal_check true (procState0 [("pay_4", sessDone)]) "pay_4" sessDone
      none (Except.error "down") 200 (by decide)).1).1,
   ((c8_amended_no_terminal_check true (procState0 [("pay_4", sessDone)]) "pay_4" sessDone
      none (Except.error "down") 200 (by decide)).2).1.1⟩

/-- Claim C9 is right and the code is wrong (code_bug): the expire sweep
processes nothing, ever.  get_expired_subscriptions returns User dataclass
instances, and the first statement of the loop body subscripts them
(user_data["telegram_id"], TypeError); the per-user except handler then
calls user_data.get in its log message (AttributeError), which escapes the
loop into the outer except, so for every store and every date the sweep
returns 0 with the store unchanged and no activity logged — no overdue row
is ever set to expired, contradicting the claim (which matches the spec and
the code's evident intent). -/
theorem c9_expire_sweep_processes_nothing (db : Store) (today : Int) :
    process_expired_subscriptions db today = (0, db, []) := by
  unfold process_expired_subscriptions
  cases h : get_expired_subscriptions db today with
  | nil => simp [processExpiredLoop]
  | cons u t => simp [processExpiredLoop, processExpiredUser, userSubscript, userGetMethod]

set_option maxHeartbeats 2000000 in
theorem getField_applyField_ne (r : UserRow) (kv : String × FieldVal) (k : String)
    (h : kv.1 ≠ k) : getField (applyField r kv) k = getField r k := by
  rcases kv with ⟨k2, v⟩
  simp only at h
  cases v <;> unfold applyField <;> split_ifs <;>
    (try rfl) <;> unfold getField <;> split_ifs <;> simp_all

set_option maxHeartbeats 2000000 in
theorem getField_applyField_isSome (r : UserRow) (kv : String × FieldVal) (k : String)
    (h : (getField r k).isSome = true) :
    (getField (applyField r kv) k).isSome = true := by
  by_cases hk : kv.1 = k
  · rcases kv with ⟨k2, v⟩
    simp only at hk
    subst hk
    cases v <;> unfold applyField <;> split_ifs <;>
      (try exact h) <;> unfold getField at h ⊢ <;> split_ifs at h ⊢ <;> simp_all
  · rw [getField_applyField_ne r kv k hk]
    exact h

theorem getField_foldl_isSome (l : List (String × FieldVal)) (r : UserRow) (k : String)
    (h : (getField r k).isSome = true) :
    (getField (l.foldl applyField r) k).isSome = true := by
  induction l generalizing r with
  | nil => exact h
  | cons e t ih => exact ih _ (getField_applyField_isSome r e k h)

theorem getField_foldl_ne (l : List (String × FieldVal)) (r : UserRow) (k : String)
    (h : ∀ e ∈ l, e.1 ≠ k) : getField (l.foldl applyField r) k = getField r k := by
  induction l generalizing r with
  | nil => rfl
  | cons e t ih =>
      rw [List.foldl_cons,
        ih _ (fun e2 he2 => h e2 (List.mem_cons_of_mem e he2)),
        getField_applyField_ne r e k (h e (List.mem_cons_self e t))]

/-- Claim C10 (confirmed): update_user drops every None-valued keyword and
every key outside the fixed valid_fields set (that filtering is the
definition of filterKwargs, translating line 208), so (1) a column for which
no entry survives the filter keeps its previous value, (2) a non-null column
can never become null — every surviving entry writes a concrete value — and
(3) when nothing survives the filter, no write is performed and the current
row is returned with the table unchanged. -/
theorem c10_update_user_frame :
    (∀ (r : UserRow) (kwargs : List (String × Option FieldVal)) (k : String),
       hasEntry (filterKwargs kwargs) k = false →
       getField (applyData r kwargs) k = getField r k) ∧
    (∀ (r : UserRow) (kwargs : List (String × Option FieldVal)) (k : String),
       (getField r k).isSome = true →
       (getField (applyData r kwargs) k).isSome = true) ∧
    (∀ (st : Store) (tid : Int) (kwargs : List (String × Option FieldVal)),
       filterKwargs kwargs = [] →
       update_user st tid kwargs = (get_user st tid, st)) := by
  refine ⟨?_, ?_, ?_⟩
  · intro r kwargs k h
    have hne : ∀ e ∈ filterKwargs kwargs, e.1 ≠ k := by
      intro e he
      simp only [hasEntry, List.any_eq_false] at h
      simpa using h e he
    exact getField_foldl_ne (filterKwargs kwargs) r k hne
  · intro r kwargs k h
    exact getField_foldl_isSome (filterKwargs kwargs) r k h
  · intro st tid kwargs h
    simp [update_user, h]

/-- Witness for claim C10: a call whose kwargs are a None-valued valid key
and a non-None invalid key — everything is dropped, the stored
next_payment_date survives, and no write happens. -/
theorem c10_witness :
    (getField (applyData c2row [("next_payment_date", none),
        ("bogus", some (FieldVal.str "x"))]) "next_payment_date" =
      getField c2row "next_payment_date") ∧
    ((getField (applyData c2row [("next_payment_date", none),
        ("bogus", some (FieldVal.str "x"))]) "next_payment_date").isSome = true) ∧
    (update_user [c2row] 42 [("next_payment_date", none),
        ("bogus", some (FieldVal.str "x"))] = (get_user [c2row] 42, [c2row])) :=
  ⟨c10_update_user_frame.1 c2row
      [("next_payment_date", none), ("bogus", some (FieldVal.str "x"))]
      "next_payment_date" (by decide),
   c10_update_user_frame.2.1 c2row
      [("next_payment_date", none), ("bogus", some (FieldVal.str "x"))]
      "next_payment_date" (by decide),
   c10_update_user_frame.2.2 [c2row] 42
      [("next_payment_date", none), ("bogus", some (FieldVal.str "x"))] (by decide)⟩
